import Mathlib

/-!
Shallow embedding of `src/run_workflow.py`, the Attune AI GitHub Action
runner.  The script dispatches on a workflow name, calls an external
workflow engine, writes report and summary files, appends key/value lines
to the CI output file named by `GITHUB_OUTPUT`, and decides the exit
status from a critical-issue gate.

The engine (`attune.workflows.WorkflowEngine.run`) and the version-control
diff subprocess are external collaborators: they are modelled as inputs
(a function from the optional file list to `Except String Report`, and a
`DiffResult` record).  All exceptions that the failure boundary in `main`
can catch arise from the engine call, which precedes every file write in
both runner functions, so a runner either returns its writes or propagates
the engine error with no writes of its own.  File-system writes themselves
are assumed to succeed, and are recorded in the output record rather than
performed.
-/

namespace AttuneAction

/-- The report object returned by the external engine.  The script only
reads these named fields (`src/run_workflow.py` lines 74-132); counts are
natural numbers, textual fields are strings, `changelog` is truthiness. -/
structure Report where
  issue_count : Nat
  critical_count : Nat
  warning_count : Nat
  info_count : Nat
  tier_used : String
  cost_savings : String
  markdown : String
  security_status : String
  test_coverage : String
  changelog : Bool
  gates_passed : Nat
  gates_total : Nat
  deriving Repr, DecidableEq

/-- Result of `subprocess.run(["git", "diff", "--name-only", "HEAD~1"],
capture_output=True, text=True)`: a return code and captured stdout.
No `check=True` is passed, so a non-zero return code does not raise. -/
structure DiffResult where
  returncode : Int
  stdout : String
  deriving Repr, DecidableEq

/-- The dictionary returned by a workflow runner: `summary`,
`issues_found`, optionally `critical_count`, optionally `cost_saved`. -/
structure RunResult where
  summary : String
  issues_found : Int
  critical_count : Option Nat
  cost_saved : Option String
  deriving Repr, DecidableEq

/-- What one runner call produced: its returned dictionary, whether the
engine was invoked, and the report/summary files it wrote (name, content). -/
structure RunnerOut where
  result : RunResult
  engineInvoked : Bool
  reportWrite : Option (String × String)
  summaryWrite : Option String
  deriving Repr, DecidableEq

/-- The `--workflow` argument; argparse restricts it to these choices. -/
inductive Workflow
  | codeReview
  | releasePrep
  deriving Repr, DecidableEq

/-- The string form of the workflow name (`args.workflow`). -/
def workflowName : Workflow → String
  | .codeReview => "code-review"
  | .releasePrep => "release-prep"

/-- Python's default `str.strip()` whitespace set (ASCII part):
space, tab, newline, carriage return, vertical tab, form feed. -/
def pyIsSpace (c : Char) : Bool :=
  c = ' ' || c = '\t' || c = '\n' || c = '\r' || c = '\x0b' || c = '\x0c'

/-- Python `str.strip()`: drop leading and trailing whitespace. -/
def pyStrip (s : String) : String :=
  ⟨((s.data.dropWhile pyIsSpace).reverse.dropWhile pyIsSpace).reverse⟩

/-- Python `str.split("\n")` on the character list: split on every
newline, keeping empty pieces (`"".split("\n") == [""]`). -/
def splitNl : List Char → List (List Char)
  | [] => [[]]
  | c :: rest =>
      let r := splitNl rest
      if c = '\n' then [] :: r
      else
        match r with
        | [] => [[c]]
        | h :: t => (c :: h) :: t

/-- `[f for f in result.stdout.strip().split("\n") if f]`
(line 56): strip the captured stdout, split on newlines, drop empties. -/
def changedFiles (stdout : String) : List String :=
  ((splitNl (pyStrip stdout).data).map (fun cs => String.mk cs)).filter
    (fun f => f ≠ "")

/-- The summary text written for the code-review workflow (lines 78-88). -/
def crSummaryText (nFiles : Nat) (r : Report) : String :=
  "## Attune AI Code Review\n\n" ++
  "**Files reviewed:** " ++ toString nFiles ++ "\n\n" ++
  "**Issues found:** " ++ toString r.issue_count ++ "\n\n" ++
  "**Critical:** " ++ toString r.critical_count ++ " | " ++
  "**Warning:** " ++ toString r.warning_count ++ " | " ++
  "**Info:** " ++ toString r.info_count ++ "\n\n" ++
  "**Cost tier used:** " ++ r.tier_used ++ "\n\n" ++
  "**Estimated savings:** " ++ r.cost_savings ++ "\n\n" ++
  "See full report in artifacts.\n"

/-- `run_code_review` (lines 40-95): compute the changed files from the
diff stdout; if the list is empty return the fixed dictionary without
calling the engine; otherwise call the engine on the file list, write the
report file and the summary file, and return the counts dictionary. -/
def run_code_review (diff : DiffResult)
    (engine : List String → Except String Report) :
    Except String RunnerOut :=
  let files := changedFiles diff.stdout
  if files = [] then
    .ok { result := { summary := "No changed files detected."
                      issues_found := 0
                      critical_count := none
                      cost_saved := some "N/A" }
          engineInvoked := false
          reportWrite := none
          summaryWrite := none }
  else
    match engine files with
    | .error e => .error e
    | .ok report =>
        .ok { result := { summary := toString report.issue_count ++
                            " issues found in " ++ toString files.length ++ " files"
                          issues_found := (report.issue_count : Int)
                          critical_count := some report.critical_count
                          cost_saved := some report.cost_savings }
              engineInvoked := true
              reportWrite := some ("code-review-report.md", report.markdown)
              summaryWrite := some (crSummaryText files.length report) }

/-- The summary text written for the release-prep workflow (lines 117-126). -/
def rpSummaryText (r : Report) : String :=
  "## Attune AI Release Prep\n\n" ++
  "**Security audit:** " ++ r.security_status ++ "\n\n" ++
  "**Test coverage:** " ++ r.test_coverage ++ "\n\n" ++
  "**Changelog generated:** " ++ (if r.changelog then "Yes" else "No") ++ "\n\n" ++
  "**Quality gates passed:** " ++ toString r.gates_passed ++ "/" ++
    toString r.gates_total ++ "\n\n" ++
  "**Cost tier used:** " ++ r.tier_used ++ "\n\n" ++
  "**Estimated savings:** " ++ r.cost_savings ++ "\n\n" ++
  "See full report in artifacts.\n"

/-- `run_release_prep` (lines 98-132): call the engine with no file
scoping, write the report and summary files, and return a dictionary whose
`issues_found` is `gates_total - gates_passed` (Python int subtraction)
and which carries no `critical_count` key. -/
def run_release_prep (engineOutcome : Except String Report) :
    Except String RunnerOut :=
  match engineOutcome with
  | .error e => .error e
  | .ok report =>
      .ok { result := { summary := "Release prep complete: " ++
                          toString report.gates_passed ++ "/" ++
                          toString report.gates_total ++ " gates passed"
                        issues_found := (report.gates_total : Int) - (report.gates_passed : Int)
                        critical_count := none
                        cost_saved := some report.cost_savings }
            engineInvoked := true
            reportWrite := some ("release-prep-report.md", report.markdown)
            summaryWrite := some (rpSummaryText report) }

/-- The dictionary dispatch `workflow_runners[args.workflow]` followed by
`runner(output_dir, args.config)` (lines 140-148): the code-review runner
receives the diff result and calls the engine with the file list; the
release-prep runner calls the engine with no file list. -/
def runnerOf (wf : Workflow) (diff : DiffResult)
    (engine : Option (List String) → Except String Report) :
    Except String RunnerOut :=
  match wf with
  | .codeReview => run_code_review diff (fun fs => engine (some fs))
  | .releasePrep => run_release_prep (engine none)

/-- The error summary written by the top-level handler (lines 152-156). -/
def errorSummary (wf : Workflow) (e : String) : String :=
  "## Attune AI - Error\n\n" ++
  "Workflow `" ++ workflowName wf ++ "` failed:\n\n" ++
  "```\n" ++ e ++ "\n```\n"

/-- Observable outcome of one process run of `main`: exit status, the
report file written by the runner, the final content of `summary.md`
(the runner's write, overwritten by the error summary on failure), the
lines appended to the `GITHUB_OUTPUT` file, and the stdout/stderr lines. -/
structure MainOut where
  exitCode : Nat
  reportWrite : Option (String × String)
  summaryWrite : Option String
  githubLines : List String
  stdoutLines : List String
  stderrLines : List String
  deriving Repr, DecidableEq

/-- The exception branch of the failure boundary (lines 149-158):
overwrite `summary.md` with the error summary, print the error annotation
to stderr, `sys.exit(1)`.  No output lines and no completion message. -/
def mainErrOut (wf : Workflow) (e : String) : MainOut :=
  { exitCode := 1
    reportWrite := none
    summaryWrite := some (errorSummary wf e)
    githubLines := []
    stdoutLines := []
    stderrLines := ["::error::Attune workflow failed: " ++ e] }

/-- Lines 161-167: `os.environ.get("GITHUB_OUTPUT", "")`, then the
truthiness test `if github_output:` — publication happens exactly when
the resulting string is non-empty, appending the four key/value lines
(`report=` gets the value of `output_dir` itself). -/
def ghOutputLines (github_env : Option String) (output_dir : String)
    (r : RunnerOut) : List String :=
  if github_env.getD "" = "" then []
  else
    ["report=" ++ output_dir,
     "summary=" ++ r.result.summary,
     "issues_found=" ++ toString r.result.issues_found,
     "cost_saved=" ++ r.result.cost_saved.getD "N/A"]

/-- The success branch of `main` (lines 160-178): publish outputs, then
the critical-issue gate `args.fail_on_critical == "true" and
result.get("critical_count", 0) > 0` either prints an error annotation
and exits 1, or the completion message is printed and the process ends
with status 0. -/
def mainOkOut (fail_on_critical : String) (github_env : Option String)
    (output_dir : String) (r : RunnerOut) : MainOut :=
  if fail_on_critical = "true" ∧ 0 < r.result.critical_count.getD 0 then
    { exitCode := 1
      reportWrite := r.reportWrite
      summaryWrite := r.summaryWrite
      githubLines := ghOutputLines github_env output_dir r
      stdoutLines := []
      stderrLines := ["::error::Found " ++ toString (r.result.critical_count.getD 0) ++
        " critical issues. Set fail_on_critical to false to ignore."] }
  else
    { exitCode := 0
      reportWrite := r.reportWrite
      summaryWrite := r.summaryWrite
      githubLines := ghOutputLines github_env output_dir r
      stdoutLines := ["Attune workflow completed: " ++ r.result.summary]
      stderrLines := [] }

/-- `main` (lines 135-178).  `github_env` is `os.environ`'s binding of
`GITHUB_OUTPUT` (`none` when unset); `output_dir` is the `--output-dir`
string.  The selected runner executes inside the failure boundary: an
exception takes the error branch, a returned dictionary the success
branch. -/
def main (wf : Workflow) (fail_on_critical : String) (github_env : Option String)
    (output_dir : String) (diff : DiffResult)
    (engine : Option (List String) → Except String Report) : MainOut :=
  match runnerOf wf diff engine with
  | .error e => mainErrOut wf e
  | .ok r => mainOkOut fail_on_critical github_env output_dir r

/-- The per-workflow report file name (lines 73 and 112). -/
def reportFileName : Workflow → String
  | .codeReview => "code-review-report.md"
  | .releasePrep => "release-prep-report.md"

/-- The fixed dictionary returned on an empty changed-file list
(lines 59-63). -/
def noChangedFilesOut : RunnerOut :=
  { result := { summary := "No changed files detected."
                issues_found := 0
                critical_count := none
                cost_saved := some "N/A" }
    engineInvoked := false
    reportWrite := none
    summaryWrite := none }

/-- A sample engine report used to instantiate the theorems below. -/
def sampleReport : Report :=
  { issue_count := 3
    critical_count := 1
    warning_count := 1
    info_count := 1
    tier_used := "capable"
    cost_savings := "$4.20"
    markdown := "# review body"
    security_status := "passed"
    test_coverage := "91%"
    changelog := true
    gates_passed := 4
    gates_total := 5 }

/-- The runner output of a code-review run over the single file `a.py`
with engine report `sampleReport`. -/
def crSampleOut : RunnerOut :=
  { result := { summary := "3 issues found in 1 files"
                issues_found := 3
                critical_count := some 1
                cost_saved := some "$4.20" }
    engineInvoked := true
    reportWrite := some ("code-review-report.md", "# review body")
    summaryWrite := some (crSummaryText 1 sampleReport) }

/-- The runner output of a release-prep run with engine report
`sampleReport`. -/
def rpSampleOut : RunnerOut :=
  { result := { summary := "Release prep complete: 4/5 gates passed"
                issues_found := 1
                critical_count := none
                cost_saved := some "$4.20" }
    engineInvoked := true
    reportWrite := some ("release-prep-report.md", "# review body")
    summaryWrite := some (rpSummaryText sampleReport) }

/-- A diff subprocess that failed (non-zero return code) but still
produced a file name on stdout. -/
def failedDiff : DiffResult :=
  { returncode := 1, stdout := "a.py" }

/-- Reducing `main` when the runner returns a dictionary. -/
theorem main_of_ok (wf : Workflow) (fc : String) (gh : Option String)
    (od : String) (diff : DiffResult)
    (engine : Option (List String) → Except String Report) (r : RunnerOut)
    (hok : runnerOf wf diff engine = .ok r) :
    main wf fc gh od diff engine = mainOkOut fc gh od r := by
  unfold main
  rw [hok]

/-- Reducing `main` when the runner raises. -/
theorem main_of_error (wf : Workflow) (fc : String) (gh : Option String)
    (od : String) (diff : DiffResult)
    (engine : Option (List String) → Except String Report) (e : String)
    (herr : runnerOf wf diff engine = .error e) :
    main wf fc gh od diff engine = mainErrOut wf e := by
  unfold main
  rw [herr]

/-- The gate branch keeps the runner's report write. -/
theorem mainOkOut_reportWrite (fc : String) (gh : Option String) (od : String)
    (r : RunnerOut) : (mainOkOut fc gh od r).reportWrite = r.reportWrite := by
  unfold mainOkOut
  split <;> rfl

/-- The gate branch keeps the runner's summary write. -/
theorem mainOkOut_summaryWrite (fc : String) (gh : Option String) (od : String)
    (r : RunnerOut) : (mainOkOut fc gh od r).summaryWrite = r.summaryWrite := by
  unfold mainOkOut
  split <;> rfl

/-- How each runner's writes relate to its `engineInvoked` flag: with the
engine invoked, exactly one report file (named after the workflow) and one
summary file are written; without it, neither is. -/
theorem runnerOf_writes (wf : Workflow) (diff : DiffResult)
    (engine : Option (List String) → Except String Report) (r : RunnerOut)
    (hok : runnerOf wf diff engine = .ok r) :
    (r.engineInvoked = true →
      r.reportWrite.map Prod.fst = some (reportFileName wf) ∧
      r.summaryWrite.isSome = true) ∧
    (r.engineInvoked = false → r.reportWrite = none ∧ r.summaryWrite = none) := by
  cases wf with
  | codeReview =>
      unfold runnerOf run_code_review at hok
      by_cases hf : changedFiles diff.stdout = []
      · simp only [hf, if_pos] at hok
        cases hok
        exact ⟨(fun h => nomatch h), fun _ => ⟨rfl, rfl⟩⟩
      · simp only [hf, if_neg] at hok
        cases heng : engine (some (changedFiles diff.stdout)) with
        | error e => rw [heng] at hok; cases hok
        | ok rpt =>
            rw [heng] at hok
            cases hok
            exact ⟨(fun _ => ⟨rfl, rfl⟩), (fun h => nomatch h)⟩
  | releasePrep =>
      unfold runnerOf run_release_prep at hok
      cases heng : engine none with
      | error e => rw [heng] at hok; cases hok
      | ok rpt =>
          rw [heng] at hok
          cases hok
          exact ⟨(fun _ => ⟨rfl, rfl⟩), (fun h => nomatch h)⟩

/-- A release-prep runner dictionary never carries a `critical_count`
key. -/
theorem runnerOf_releasePrep_critical (diff : DiffResult)
    (engine : Option (List String) → Except String Report) (r : RunnerOut)
    (hok : runnerOf .releasePrep diff engine = .ok r) :
    r.result.critical_count = none := by
  unfold runnerOf run_release_prep at hok
  cases heng : engine none with
  | error e => rw [heng] at hok; cases hok
  | ok rpt => rw [heng] at hok; cases hok; rfl

/-- C1: for every run in which the selected workflow handler returns a
result, if the fail-on-critical parameter is the literal string "true"
and the result's critical-issue count is greater than zero, the process
prints an error line to stderr and exits with a non-zero status, even
though the workflow completed without raising. -/
theorem C1_critical_gate (wf : Workflow) (gh : Option String) (od : String)
    (diff : DiffResult) (engine : Option (List String) → Except String Report)
    (r : RunnerOut) (hok : runnerOf wf diff engine = .ok r)
    (hcrit : 0 < r.result.critical_count.getD 0) :
    (main wf "true" gh od diff engine).stderrLines =
      ["::error::Found " ++ toString (r.result.critical_count.getD 0) ++
        " critical issues. Set fail_on_critical to false to ignore."] ∧
    (main wf "true" gh od diff engine).exitCode ≠ 0 := by
  rw [main_of_ok wf "true" gh od diff engine r hok]
  unfold mainOkOut
  rw [if_pos ⟨rfl, hcrit⟩]
  exact ⟨rfl, Nat.one_ne_zero⟩

/-- C1 witness: a code-review run over `a.py` whose engine report carries
one critical issue, with fail-on-critical "true", exits non-zero with the
error annotation on stderr. -/
theorem C1_witness :
    (main .codeReview "true" none "out" ⟨0, "a.py"⟩
        (fun _ => .ok sampleReport)).stderrLines =
      ["::error::Found " ++ toString (crSampleOut.result.critical_count.getD 0) ++
        " critical issues. Set fail_on_critical to false to ignore."] ∧
    (main .codeReview "true" none "out" ⟨0, "a.py"⟩
        (fun _ => .ok sampleReport)).exitCode ≠ 0 :=
  C1_critical_gate .codeReview none "out" ⟨0, "a.py"⟩ (fun _ => .ok sampleReport)
    crSampleOut rfl (by decide)

/-- C2: for every exception raised during execution of either workflow
path, the top-level handler overwrites the summary file with an "Error"
heading containing the exception text, emits an error line to stderr, and
exits with a non-zero status; no GitHub output lines and no success
message are produced. -/
theorem C2_exception_boundary (wf : Workflow) (fc : String) (gh : Option String)
    (od : String) (diff : DiffResult)
    (engine : Option (List String) → Except String Report) (e : String)
    (herr : runnerOf wf diff engine = .error e) :
    (main wf fc gh od diff engine).summaryWrite = some (errorSummary wf e) ∧
    (∃ rest, errorSummary wf e = "## Attune AI - Error\n\n" ++ rest) ∧
    (∃ pre post, errorSummary wf e = pre ++ (e ++ post)) ∧
    (main wf fc gh od diff engine).stderrLines =
      ["::error::Attune workflow failed: " ++ e] ∧
    (main wf fc gh od diff engine).exitCode ≠ 0 ∧
    (main wf fc gh od diff engine).githubLines = [] ∧
    (main wf fc gh od diff engine).stdoutLines = [] := by
  rw [main_of_error wf fc gh od diff engine e herr]
  refine ⟨rfl, ⟨_, rfl⟩,
    ⟨"## Attune AI - Error\n\n" ++ ("Workflow `" ++ (workflowName wf ++
        ("` failed:\n\n" ++ "```\n"))), "\n```\n",
      by simp only [errorSummary, String.append_assoc]⟩,
    rfl, Nat.one_ne_zero, rfl, rfl⟩

/-- C2 witness: a release-prep run whose engine raises "boom". -/
theorem C2_witness :
    (main .releasePrep "true" none "out" ⟨0, ""⟩
        (fun _ => .error "boom")).summaryWrite =
      some (errorSummary .releasePrep "boom") ∧
    (∃ rest, errorSummary .releasePrep "boom" = "## Attune AI - Error\n\n" ++ rest) ∧
    (∃ pre post, errorSummary .releasePrep "boom" = pre ++ ("boom" ++ post)) ∧
    (main .releasePrep "true" none "out" ⟨0, ""⟩
        (fun _ => .error "boom")).stderrLines =
      ["::error::Attune workflow failed: " ++ "boom"] ∧
    (main .releasePrep "true" none "out" ⟨0, ""⟩
        (fun _ => .error "boom")).exitCode ≠ 0 ∧
    (main .releasePrep "true" none "out" ⟨0, ""⟩
        (fun _ => .error "boom")).githubLines = [] ∧
    (main .releasePrep "true" none "out" ⟨0, ""⟩
        (fun _ => .error "boom")).stdoutLines = [] :=
  C2_exception_boundary .releasePrep "true" none "out" ⟨0, ""⟩
    (fun _ => .error "boom") "boom" rfl

/-- C3: for the code-review workflow, an empty changed-file list makes the
handler return exactly the fixed dictionary (summary "No changed files
detected.", issues_found 0, cost_saved "N/A") without invoking the engine,
for every engine. -/
theorem C3_empty_diff_short_circuit (diff : DiffResult)
    (engine : List String → Except String Report)
    (h : changedFiles diff.stdout = []) :
    run_code_review diff engine = .ok noChangedFilesOut ∧
    noChangedFilesOut.engineInvoked = false := by
  constructor
  · unfold run_code_review
    simp only [h, if_pos]
    rfl
  · rfl

/-- C3 witness: a diff with empty stdout short-circuits. -/
theorem C3_witness :
    run_code_review ⟨0, ""⟩ (fun _ => .ok sampleReport) = .ok noChangedFilesOut ∧
    noChangedFilesOut.engineInvoked = false :=
  C3_empty_diff_short_circuit ⟨0, ""⟩ (fun _ => .ok sampleReport) rfl

/-- C6: when fail-on-critical is any string other than "true", a positive
critical-issue count in the returned result does not cause a non-zero
exit: the process prints the completion message and exits 0. -/
theorem C6_gate_disabled (wf : Workflow) (fc : String) (gh : Option String)
    (od : String) (diff : DiffResult)
    (engine : Option (List String) → Except String Report) (r : RunnerOut)
    (hok : runnerOf wf diff engine = .ok r) (hfc : fc ≠ "true") :
    (main wf fc gh od diff engine).exitCode = 0 ∧
    (main wf fc gh od diff engine).stdoutLines =
      ["Attune workflow completed: " ++ r.result.summary] := by
  rw [main_of_ok wf fc gh od diff engine r hok]
  unfold mainOkOut
  rw [if_neg (fun hand => hfc hand.1)]
  exact ⟨rfl, rfl⟩

/-- C6 witness: the code-review run over `a.py` with one critical issue
and fail-on-critical "false" exits 0. -/
theorem C6_witness :
    (main .codeReview "false" none "out" ⟨0, "a.py"⟩
        (fun _ => .ok sampleReport)).exitCode = 0 ∧
    (main .codeReview "false" none "out" ⟨0, "a.py"⟩
        (fun _ => .ok sampleReport)).stdoutLines =
      ["Attune workflow completed: " ++ crSampleOut.result.summary] :=
  C6_gate_disabled .codeReview "false" none "out" ⟨0, "a.py"⟩
    (fun _ => .ok sampleReport) crSampleOut rfl (by decide)

/-- C4: for the code-review workflow with a non-empty changed-file list
and an engine report, the handler invokes the engine, writes the report
file with the report's markdown rendering, writes the summary file with
the exact file count and issue/critical/warning/info counts, and returns
the counts dictionary. -/
theorem C4_nonempty_review (diff : DiffResult)
    (engine : List String → Except String Report) (rpt : Report)
    (hne : changedFiles diff.stdout ≠ [])
    (heng : engine (changedFiles diff.stdout) = .ok rpt) :
    run_code_review diff engine =
      .ok { result := { summary := toString rpt.issue_count ++
                          " issues found in " ++
                          toString (changedFiles diff.stdout).length ++ " files"
                        issues_found := (rpt.issue_count : Int)
                        critical_count := some rpt.critical_count
                        cost_saved := some rpt.cost_savings }
            engineInvoked := true
            reportWrite := some ("code-review-report.md", rpt.markdown)
            summaryWrite :=
              some (crSummaryText (changedFiles diff.stdout).length rpt) } := by
  simp only [run_code_review]
  rw [if_neg hne, heng]

/-- C4 witness: one changed file and the sample report with 3 issues
(1 critical) produce the expected report and summary writes. -/
theorem C4_witness :
    changedFiles "a.py" ≠ [] ∧
    run_code_review ⟨0, "a.py"⟩ (fun _ => .ok sampleReport) = .ok crSampleOut :=
  ⟨by decide,
    C4_nonempty_review ⟨0, "a.py"⟩ (fun _ => .ok sampleReport) sampleReport
      (by decide) rfl⟩

/-- C8: the release-prep runner's dictionary never carries a
critical-issue count, so a completed release-prep run can never exit
non-zero via the critical-issue gate, whatever the fail-on-critical value
and the engine report. -/
theorem C8_release_prep_gate_immune (fc : String) (gh : Option String)
    (od : String) (diff : DiffResult)
    (engine : Option (List String) → Except String Report) (r : RunnerOut)
    (hok : runnerOf .releasePrep diff engine = .ok r) :
    r.result.critical_count = none ∧
    (main .releasePrep fc gh od diff engine).exitCode = 0 := by
  have hnone := runnerOf_releasePrep_critical diff engine r hok
  refine ⟨hnone, ?_⟩
  rw [main_of_ok .releasePrep fc gh od diff engine r hok]
  have hcond : ¬ (fc = "true" ∧ 0 < r.result.critical_count.getD 0) := by
    intro hand
    rw [hnone] at hand
    exact absurd hand.2 (by decide)
  unfold mainOkOut
  rw [if_neg hcond]

/-- C8 witness: a completed release-prep run with fail-on-critical "true"
still exits 0, its dictionary holding no critical count. -/
theorem C8_witness :
    rpSampleOut.result.critical_count = none ∧
    (main .releasePrep "true" none "out" ⟨0, ""⟩
        (fun _ => .ok sampleReport)).exitCode = 0 :=
  C8_release_prep_gate_immune "true" none "out" ⟨0, ""⟩
    (fun _ => .ok sampleReport) rpSampleOut rfl

/-- C10: for the release-prep workflow, the dictionary's issues_found
equals the engine report's gates_total minus gates_passed (integer
subtraction) and its summary reports gates_passed/gates_total gates
passed. -/
theorem C10_release_outcome (diff : DiffResult)
    (engine : Option (List String) → Except String Report) (rpt : Report)
    (heng : engine none = .ok rpt) :
    runnerOf .releasePrep diff engine =
      .ok { result := { summary := "Release prep complete: " ++
                          toString rpt.gates_passed ++ "/" ++
                          toString rpt.gates_total ++ " gates passed"
                        issues_found := (rpt.gates_total : Int) - (rpt.gates_passed : Int)
                        critical_count := none
                        cost_saved := some rpt.cost_savings }
            engineInvoked := true
            reportWrite := some ("release-prep-report.md", rpt.markdown)
            summaryWrite := some (rpSummaryText rpt) } := by
  unfold runnerOf run_release_prep
  rw [heng]

/-- C10 witness: the sample report with 4 of 5 gates passed yields
issues_found 1 and the 4/5 summary. -/
theorem C10_witness :
    runnerOf .releasePrep ⟨0, ""⟩ (fun _ => .ok sampleReport) = .ok rpSampleOut :=
  C10_release_outcome ⟨0, ""⟩ (fun _ => .ok sampleReport) sampleReport rfl

/-- C5 counterexample: with `GITHUB_OUTPUT` set to the empty string, the
run succeeds but appends no lines at all — the truthiness test on line
162 treats a set-but-empty variable exactly like an unset one, refuting
"if it is set, the named file gains exactly one appended line each". -/
theorem C5_counterexample :
    (some "" : Option String).isSome = true ∧
    (main .releasePrep "true" (some "") "out" ⟨0, ""⟩
        (fun _ => .ok sampleReport)).exitCode = 0 ∧
    (main .releasePrep "true" (some "") "out" ⟨0, ""⟩
        (fun _ => .ok sampleReport)).githubLines = [] :=
  ⟨rfl, rfl, rfl⟩

/-- C5 (amended): on a successful run, if `GITHUB_OUTPUT` is unset the
run still succeeds, prints the summary to stdout and skips publication;
if it is set to a non-empty string, the output file gains exactly one
appended line each for report=, summary=, issues_found= and cost_saved=. -/
theorem C5_output_publication (wf : Workflow) (fc : String) (gh : Option String)
    (od : String) (diff : DiffResult)
    (engine : Option (List String) → Except String Report) (r : RunnerOut)
    (hok : runnerOf wf diff engine = .ok r)
    (hgate : ¬ (fc = "true" ∧ 0 < r.result.critical_count.getD 0)) :
    (gh = none →
      (main wf fc gh od diff engine).exitCode = 0 ∧
      (main wf fc gh od diff engine).stdoutLines =
        ["Attune workflow completed: " ++ r.result.summary] ∧
      (main wf fc gh od diff engine).githubLines = []) ∧
    (∀ p : String, gh = some p → p ≠ "" →
      (main wf fc gh od diff engine).githubLines =
        ["report=" ++ od,
         "summary=" ++ r.result.summary,
         "issues_found=" ++ toString r.result.issues_found,
         "cost_saved=" ++ r.result.cost_saved.getD "N/A"]) := by
  rw [main_of_ok wf fc gh od diff engine r hok]
  unfold mainOkOut
  rw [if_neg hgate]
  constructor
  · intro hgh
    subst hgh
    exact ⟨rfl, rfl, by simp [ghOutputLines]⟩
  · intro p hgh hp
    subst hgh
    show ghOutputLines (some p) od r = _
    simp [ghOutputLines, hp]

/-- C5 witness: with `GITHUB_OUTPUT` set to "gh", a successful
release-prep run appends the four key/value lines. -/
theorem C5_witness :
    (main .releasePrep "true" (some "gh") "out" ⟨0, ""⟩
        (fun _ => .ok sampleReport)).githubLines =
      ["report=" ++ "out",
       "summary=" ++ rpSampleOut.result.summary,
       "issues_found=" ++ toString rpSampleOut.result.issues_found,
       "cost_saved=" ++ rpSampleOut.result.cost_saved.getD "N/A"] :=
  (C5_output_publication .releasePrep "true" (some "gh") "out" ⟨0, ""⟩
      (fun _ => .ok sampleReport) rpSampleOut rfl (by decide)).2 "gh" rfl (by decide)

/-- C7 counterexample: a code-review run over an empty diff completes
successfully yet writes neither a report file nor a summary file,
refuting "every run writes exactly one report file and exactly one
summary file". -/
theorem C7_counterexample :
    (main .codeReview "true" none "out" ⟨0, ""⟩
        (fun _ => .ok sampleReport)).exitCode = 0 ∧
    (main .codeReview "true" none "out" ⟨0, ""⟩
        (fun _ => .ok sampleReport)).reportWrite = none ∧
    (main .codeReview "true" none "out" ⟨0, ""⟩
        (fun _ => .ok sampleReport)).summaryWrite = none :=
  ⟨rfl, rfl, rfl⟩

/-- C7 (amended): a run whose handler invoked the engine writes exactly
one report file, named after the selected workflow, and one summary file;
a code-review run with no changed files writes neither; a failed run
writes no report file and overwrites the summary file with the error
summary. -/
theorem C7_file_outputs (wf : Workflow) (fc : String) (gh : Option String)
    (od : String) (diff : DiffResult)
    (engine : Option (List String) → Except String Report) :
    (∀ e, runnerOf wf diff engine = .error e →
      (main wf fc gh od diff engine).reportWrite = none ∧
      (main wf fc gh od diff engine).summaryWrite = some (errorSummary wf e)) ∧
    (∀ r, runnerOf wf diff engine = .ok r → r.engineInvoked = true →
      (main wf fc gh od diff engine).reportWrite.map Prod.fst =
        some (reportFileName wf) ∧
      (main wf fc gh od diff engine).summaryWrite.isSome = true) ∧
    (∀ r, runnerOf wf diff engine = .ok r → r.engineInvoked = false →
      (main wf fc gh od diff engine).reportWrite = none ∧
      (main wf fc gh od diff engine).summaryWrite = none) := by
  refine ⟨?_, ?_, ?_⟩
  · intro e herr
    rw [main_of_error wf fc gh od diff engine e herr]
    exact ⟨rfl, rfl⟩
  · intro r hok hinv
    rw [main_of_ok wf fc gh od diff engine r hok]
    rw [mainOkOut_reportWrite, mainOkOut_summaryWrite]
    exact (runnerOf_writes wf diff engine r hok).1 hinv
  · intro r hok hinv
    rw [main_of_ok wf fc gh od diff engine r hok]
    rw [mainOkOut_reportWrite, mainOkOut_summaryWrite]
    exact (runnerOf_writes wf diff engine r hok).2 hinv

/-- C7 witness: a code-review run over `a.py` writes the
code-review-report.md report file and a summary file. -/
theorem C7_witness :
    (main .codeReview "true" none "out" ⟨0, "a.py"⟩
        (fun _ => .ok sampleReport)).reportWrite.map Prod.fst =
      some (reportFileName .codeReview) ∧
    (main .codeReview "true" none "out" ⟨0, "a.py"⟩
        (fun _ => .ok sampleReport)).summaryWrite.isSome = true :=
  (C7_file_outputs .codeReview "true" none "out" ⟨0, "a.py"⟩
      (fun _ => .ok sampleReport)).2.1 crSampleOut rfl rfl

/-- C9 counterexample: the diff subprocess's exit status is never
inspected — a failed diff (return code 1) whose stdout still names a file
invokes the engine and does not behave like an empty changed-file list,
refuting "non-zero exit or empty standard output → fixed no-changed-files
result". -/
theorem C9_counterexample :
    failedDiff.returncode ≠ 0 ∧
    run_code_review failedDiff (fun _ => .ok sampleReport) = .ok crSampleOut ∧
    crSampleOut.engineInvoked = true ∧
    crSampleOut.result.summary ≠ "No changed files detected." :=
  ⟨by decide, rfl, rfl, by decide⟩

/-- C9 (amended): the diff's return code is ignored entirely — two diff
results with the same stdout behave identically — and whenever the diff's
stdout is empty the run does not raise and succeeds with the fixed
"No changed files detected." result without invoking the engine. -/
theorem C9_diff_failure (rc rc2 : Int) (s : String)
    (engine : List String → Except String Report) :
    run_code_review ⟨rc, s⟩ engine = run_code_review ⟨rc2, s⟩ engine ∧
    (s = "" → run_code_review ⟨rc, s⟩ engine = .ok noChangedFilesOut) := by
  constructor
  · rfl
  · intro hs
    subst hs
    rfl

/-- C9 witness: a failed diff (return code 1) with empty stdout behaves
like a clean diff (return code 0) and yields the fixed result. -/
theorem C9_witness :
    run_code_review ⟨(1 : Int), ""⟩ (fun _ => .ok sampleReport) =
      run_code_review ⟨(0 : Int), ""⟩ (fun _ => .ok sampleReport) ∧
    run_code_review ⟨(1 : Int), ""⟩ (fun _ => .ok sampleReport) =
      .ok noChangedFilesOut :=
  ⟨(C9_diff_failure 1 0 "" (fun _ => .ok sampleReport)).1,
   (C9_diff_failure 1 0 "" (fun _ => .ok sampleReport)).2 rfl⟩

end AttuneAction
